import Mathlib

/-!
Shallow embedding of the convergence engine of
`custom_components/ha_light_controller/controller.py` (HA-Light-Controller),
together with proofs settling the frozen claims about its specification.

Machine conventions of the embedding:
* Python `int` becomes `ℤ`; time quantities and delays (Python `float`,
  exactly representable in the claims' ranges) become `ℚ`.
* A Home Assistant `State` object becomes `StateObj`; the attribute
  dictionary is restricted to the attributes the controller reads
  (`entity_id` members, `brightness`, `rgb_color`, `supported_color_modes`,
  `color_temp_kelvin`, `color_temperature_kelvin`).
* `hass.states.get` becomes an explicit oracle `String → Option StateObj`.
* The async retry loop becomes a fuel-indexed recursion; wall-clock
  sampling (`monotonic()`) becomes an explicit environment `Env` giving the
  elapsed time observed at the top of each iteration and at return.
* Service calls are not performed; they are recorded as `DispatchEvent`s.
-/

/-- Result codes from `const.py` (RESULT_CODE_*). -/
def RESULT_CODE_SUCCESS : String := "success"

def RESULT_CODE_FAILED : String := "failed"

def RESULT_CODE_TIMEOUT : String := "timeout"

def RESULT_CODE_ERROR : String := "error"

def RESULT_CODE_NO_VALID_ENTITIES : String := "no_valid_entities"

/-- Color mode constants from `const.py`. -/
def COLOR_MODE_RGB : String := "rgb"

def COLOR_MODE_HS : String := "hs"

def COLOR_MODE_COLOR_TEMP : String := "color_temp"

/-- ASCII lower-casing of one character (`str.lower`; the state strings of
interest are ASCII). -/
def asciiLower (c : Char) : Char :=
  if 'A' ≤ c ∧ c ≤ 'Z' then Char.ofNat (c.toNat + 32) else c

/-- `str.lower` over a whole string. -/
def strLower (s : String) : String :=
  ⟨s.data.map asciiLower⟩

/-- `str.strip`: drop leading and trailing whitespace. -/
def strStrip (s : String) : String :=
  ⟨((s.data.dropWhile Char.isWhitespace).reverse.dropWhile
      Char.isWhitespace).reverse⟩

/-- `str.startswith`: character-list test that `pre` is an initial segment
of `s`. -/
def strStarts (s pre : String) : Bool :=
  go s.data pre.data
where
  go : List Char → List Char → Bool
    | _, [] => true
    | [], _ :: _ => false
    | a :: as, b :: bs => a = b && go as bs

/-- `TargetState` enum: target state for lights. -/
inductive TargetState where
  | ON
  | OFF
deriving DecidableEq, Repr

/-- `TargetState.from_string`: parse a string into a target state.  The
Python version lowercases and strips the input and raises `ValueError` on
anything other than "on"/"off"; the failure is modelled as `none`. -/
def TargetState.from_string (value : String) : Option TargetState :=
  let normalized := strStrip (strLower value)
  if normalized = "on" then some .ON
  else if normalized = "off" then some .OFF
  else none

/-- `VerificationResult` enum: result of verifying a light's state. -/
inductive VerificationResult where
  | SUCCESS
  | WRONG_STATE
  | WRONG_BRIGHTNESS
  | WRONG_COLOR
  | UNAVAILABLE
  | ERROR
deriving DecidableEq, Repr

/-- `ColorTolerance` dataclass. -/
structure ColorTolerance where
  brightness : ℤ := 3
  rgb : ℤ := 10
  kelvin : ℤ := 150
deriving DecidableEq, Repr

/-- `RetryConfig` dataclass.  `max_retries` is used only as a loop bound
and is modelled as `ℕ`. -/
structure RetryConfig where
  max_retries : ℕ := 3
  delay_after_send : ℚ := 2
  max_runtime_seconds : ℚ := 60
  use_exponential_backoff : Bool := false
  max_backoff_seconds : ℚ := 30
deriving DecidableEq, Repr

/-- `RetryConfig.calculate_delay`: delay for a given attempt with optional
exponential backoff. -/
def RetryConfig.calculate_delay (c : RetryConfig) (attempt : ℕ) : ℚ :=
  if c.use_exponential_backoff = true ∧ 0 < attempt then
    min (c.delay_after_send * 2 ^ attempt) c.max_backoff_seconds
  else c.delay_after_send

/-- The attribute dictionary of a state object, restricted to the keys the
controller reads.  `members` models the `entity_id` attribute (group
members); an absent key is `none` / `[]`. -/
structure Attrs where
  members : List String := []
  brightness : Option ℤ := none
  rgb_color : Option (List ℤ) := none
  supported_color_modes : List String := []
  color_temp_kelvin : Option ℤ := none
  color_temperature_kelvin : Option ℤ := none
deriving DecidableEq, Repr

/-- A Home Assistant state object: the state string plus attributes. -/
structure StateObj where
  state : String
  attributes : Attrs := {}
deriving DecidableEq, Repr

/-- The state machine's read-only oracle: `hass.states.get`. -/
def Oracle := String → Option StateObj

/-- `dict(state.attributes) if state else {}`, as it appears before each
attribute read. -/
def oracleAttrs (st : Oracle) (entity_id : String) : Attrs :=
  match st entity_id with
  | some s => s.attributes
  | none => {}

/-- `LightTarget` dataclass: target settings for a single light. -/
structure LightTarget where
  entity_id : String
  brightness_pct : ℤ := 100
  rgb_color : Option (List ℤ) := none
  color_temp_kelvin : Option ℤ := none
  effect : Option String := none
deriving DecidableEq, Repr

/-- `LightGroup` dataclass: a group of lights with identical settings. -/
structure LightGroup where
  entities : List String
  brightness_pct : ℤ
  rgb_color : Option (List ℤ) := none
  color_temp_kelvin : Option ℤ := none
  effect : Option String := none
deriving DecidableEq, Repr

/-- The service-call payload assembled by `to_service_data`, restricted to
the keys that function can emit. -/
structure ServiceData where
  brightness_pct : ℤ
  rgb_color : Option (List ℤ) := none
  color_temp_kelvin : Option ℤ := none
  effect : Option String := none
  transition : Option ℚ := none
deriving DecidableEq, Repr

/-- `LightSettingsMixin.to_service_data`, over the four shared settings
fields: `rgb_color` is emitted when present; `color_temp_kelvin` is emitted
only when `rgb_color` is absent; `transition` only when positive. -/
def mixin_to_service_data (brightness_pct : ℤ) (rgb_color : Option (List ℤ))
    (color_temp_kelvin : Option ℤ) (effect : Option String)
    (include_transition : Option ℚ) : ServiceData :=
  { brightness_pct := brightness_pct
    rgb_color := rgb_color
    color_temp_kelvin := if rgb_color = none then color_temp_kelvin else none
    effect := effect
    transition :=
      match include_transition with
      | some t => if 0 < t then some t else none
      | none => none }

/-- `to_service_data` on a `LightTarget`. -/
def LightTarget.to_service_data (t : LightTarget) (include_transition : Option ℚ) :
    ServiceData :=
  mixin_to_service_data t.brightness_pct t.rgb_color t.color_temp_kelvin t.effect
    include_transition

/-- `to_service_data` on a `LightGroup`. -/
def LightGroup.to_service_data (g : LightGroup) (include_transition : Option ℚ) :
    ServiceData :=
  mixin_to_service_data g.brightness_pct g.rgb_color g.color_temp_kelvin g.effect
    include_transition

/-- Python's `round` on an exact rational: round half to even (banker's
rounding).  For the raw-brightness domain `0..255` the argument is never an
exact half, so the tie rule is inert there. -/
def pyRound (q : ℚ) : ℤ :=
  let f := ⌊q⌋
  let r := q - (f : ℚ)
  if r < 1 / 2 then f
  else if 1 / 2 < r then f + 1
  else if f % 2 = 0 then f else f + 1

/-- Python `x or y` on two optional integers, where both `None` and `0` are
falsy (as in `attrs.get("color_temp_kelvin") or attrs.get(...)`). -/
def pyOrInt (x y : Option ℤ) : Option ℤ :=
  match x with
  | some v => if v = 0 then y else some v
  | none => y

/-- `LightController._is_available`: the entity has a state record whose
state is neither "unavailable" nor "unknown". -/
def is_available (st : Oracle) (entity_id : String) : Bool :=
  match st entity_id with
  | none => false
  | some s => decide (¬(s.state = "unavailable" ∨ s.state = "unknown"))

/-- `LightController._verify_brightness`: raw 0–255 brightness (absent or 0
reads as 0 via `or 0`) is converted to a rounded percentage and compared to
the expected percentage within the tolerance band. -/
def verify_brightness (st : Oracle) (entity_id : String) (expected_pct : ℤ)
    (tolerance : ℤ) : Bool :=
  let attrs := oracleAttrs st entity_id
  let raw_brightness : ℤ := attrs.brightness.getD 0
  let actual_pct := pyRound ((raw_brightness : ℚ) / 255 * 100)
  decide (expected_pct - tolerance ≤ actual_pct ∧ actual_pct ≤ expected_pct + tolerance)

/-- `LightController._verify_rgb`: `none` when no RGB target is requested or
the device supports neither RGB nor HS; otherwise whether every channel of
the reported color is within tolerance of the requested one (a missing or
malformed reported color fails). -/
def verify_rgb (st : Oracle) (entity_id : String) (expected_rgb : Option (List ℤ))
    (tolerance : ℤ) : Option Bool :=
  match expected_rgb with
  | none => none
  | some expected =>
    let attrs := oracleAttrs st entity_id
    let supported_modes := attrs.supported_color_modes
    if ¬(COLOR_MODE_RGB ∈ supported_modes ∨ COLOR_MODE_HS ∈ supported_modes) then none
    else
      match attrs.rgb_color with
      | none => some false
      | some actual =>
        if actual.length ≠ 3 then some false
        else
          some ((expected.zip actual).all fun p =>
            decide (p.1 - tolerance ≤ p.2 ∧ p.2 ≤ p.1 + tolerance))

/-- `LightController._verify_kelvin`: `none` when no kelvin target is
requested or the device does not support color temperature; otherwise
whether the reported temperature (first non-falsy of the two attribute
spellings) is within tolerance (absent reported value fails). -/
def verify_kelvin (st : Oracle) (entity_id : String) (expected_kelvin : Option ℤ)
    (tolerance : ℤ) : Option Bool :=
  match expected_kelvin with
  | none => none
  | some expected =>
    let attrs := oracleAttrs st entity_id
    if COLOR_MODE_COLOR_TEMP ∉ attrs.supported_color_modes then none
    else
      match pyOrInt attrs.color_temp_kelvin attrs.color_temperature_kelvin with
      | none => some false
      | some actual =>
        some (decide (expected - tolerance ≤ actual ∧ actual ≤ expected + tolerance))

/-- `LightController._verify_light`: classify one target against the live
state.  The `except` branch producing `ERROR` is unreachable in the
pure embedding (the oracle cannot raise). -/
def verify_light (st : Oracle) (target : LightTarget) (target_state : TargetState)
    (tolerances : ColorTolerance) : VerificationResult :=
  let entity_id := target.entity_id
  let current_state := (st entity_id).map StateObj.state
  if current_state = none ∨ current_state = some "unavailable" ∨
      current_state = some "unknown" then
    .UNAVAILABLE
  else
    match target_state with
    | .OFF => if current_state = some "off" then .SUCCESS else .WRONG_STATE
    | .ON =>
      if current_state ≠ some "on" then .WRONG_STATE
      else if verify_brightness st entity_id target.brightness_pct
          tolerances.brightness = false then .WRONG_BRIGHTNESS
      else
        let has_rgb := target.rgb_color ≠ none
        let has_kelvin := target.color_temp_kelvin ≠ none
        if ¬has_rgb ∧ ¬has_kelvin then .SUCCESS
        else
          let rgb_result := verify_rgb st entity_id target.rgb_color tolerances.rgb
          let kelvin_result :=
            verify_kelvin st entity_id target.color_temp_kelvin tolerances.kelvin
          let rgb_ok := if has_rgb then rgb_result ≠ some false else True
          let kelvin_ok := if has_kelvin then kelvin_result ≠ some false else True
          if rgb_ok ∨ kelvin_ok then .SUCCESS else .WRONG_COLOR

/-- The grouping key of `LightController._group_by_settings`:
`(brightness_pct, tuple(rgb_color) if rgb_color else None, color_temp_kelvin, effect)`.
Note that Python truthiness maps an empty rgb list to `None` in the key. -/
def GroupKey : Type := ℤ × Option (List ℤ) × Option ℤ × Option String

instance : DecidableEq GroupKey := by
  unfold GroupKey
  infer_instance

/-- The rgb component of the grouping key (`tuple(...) if ... else None`). -/
def rgbKey : Option (List ℤ) → Option (List ℤ)
  | none => none
  | some l => if l = [] then none else some l

/-- The grouping key of one target. -/
def targetKey (t : LightTarget) : GroupKey :=
  (t.brightness_pct, rgbKey t.rgb_color, t.color_temp_kelvin, t.effect)

/-- The fresh group created when a key is first seen. -/
def newGroup (t : LightTarget) : LightGroup :=
  { entities := [t.entity_id]
    brightness_pct := t.brightness_pct
    rgb_color := t.rgb_color
    color_temp_kelvin := t.color_temp_kelvin
    effect := t.effect }

/-- Append one more entity to an existing group. -/
def appendEntity (g : LightGroup) (entity_id : String) : LightGroup :=
  { g with entities := g.entities ++ [entity_id] }

/-- One step of the `groups` dict construction: update the entry at the
target's key if present, otherwise append a new entry at the end
(Python dicts preserve insertion order). -/
def addToGroups : List (GroupKey × LightGroup) → LightTarget →
    List (GroupKey × LightGroup)
  | [], t => [(targetKey t, newGroup t)]
  | (k, g) :: rest, t =>
    if k = targetKey t then (k, appendEntity g t.entity_id) :: rest
    else (k, g) :: addToGroups rest t

/-- `LightController._group_by_settings`: group targets with identical
settings for batched commands. -/
def group_by_settings (targets : List LightTarget) : List LightGroup :=
  (targets.foldl addToGroups []).map Prod.snd

/-- The recursion behind `pyDedup`: keep each element not yet seen,
tracking the set of seen elements (insertion into a Python dict keeps the
first occurrence's position). -/
def pyDedupAux (seen : List String) : List String → List String
  | [] => []
  | a :: l =>
    if a ∈ seen then pyDedupAux seen l
    else a :: pyDedupAux (a :: seen) l

/-- `list(dict.fromkeys(xs))`: deduplicate keeping the first occurrence of
each element, preserving order. -/
def pyDedup (l : List String) : List String :=
  pyDedupAux [] l

/-- `LightController._expand_entity`: expand a single reference into
`(valid_lights, skipped_lights)`.  A reference with a non-empty member list
is expanded to its lighting-domain members, split by availability; a bare
lighting-domain id is classified directly; anything else contributes
nothing. -/
def expand_entity (st : Oracle) (entity_id : String) : List String × List String :=
  let attrs := oracleAttrs st entity_id
  let members := attrs.members
  if members ≠ [] then
    let lightMembers := members.filter fun m => strStarts m "light."
    (lightMembers.filter fun m => is_available st m,
     lightMembers.filter fun m => !(is_available st m))
  else if strStarts entity_id "light." then
    if is_available st entity_id then ([entity_id], []) else ([], [entity_id])
  else ([], [])

/-- `LightController._expand_entities`: expand a list of references and
deduplicate each side preserving first-occurrence order. -/
def expand_entities (st : Oracle) (entities : List String) :
    List String × List String :=
  let all_valid := entities.flatMap fun e => (expand_entity st e).1
  let all_skipped := entities.flatMap fun e => (expand_entity st e).2
  (pyDedup all_valid, pyDedup all_skipped)

/-- One entry of the caller-supplied `targets` override list; `none` marks
an absent key. -/
structure TargetOverride where
  entity_id : String
  brightness_pct : Option ℤ := none
  rgb_color : Option (List ℤ) := none
  color_temp_kelvin : Option ℤ := none
  color_temperature_kelvin : Option ℤ := none
  effect : Option String := none
deriving DecidableEq, Repr

/-- The `overrides` dict built in `ensure_state`: keyed by `entity_id`,
later entries overwrite earlier ones. -/
def buildOverrides (ts : List TargetOverride) (entity_id : String) :
    Option TargetOverride :=
  (ts.filter fun o => o.entity_id = entity_id).getLast?

/-- `LightController._build_targets`: one `LightTarget` per member, each
field taken from the member's override when present, else the default
(`color_temp_kelvin` also falls back to the `color_temperature_kelvin`
spelling of the override). -/
def build_targets (members : List String)
    (overrides : String → Option TargetOverride)
    (default_brightness_pct : ℤ) (default_rgb_color : Option (List ℤ))
    (default_color_temp_kelvin : Option ℤ) (default_effect : Option String) :
    List LightTarget :=
  members.map fun entity_id =>
    let o := (overrides entity_id).getD { entity_id := entity_id }
    { entity_id := entity_id
      brightness_pct := o.brightness_pct.getD default_brightness_pct
      rgb_color :=
        match o.rgb_color with
        | some v => some v
        | none => default_rgb_color
      color_temp_kelvin :=
        match o.color_temp_kelvin with
        | some v => some v
        | none =>
          match o.color_temperature_kelvin with
          | some v => some v
          | none => default_color_temp_kelvin
      effect :=
        match o.effect with
        | some v => some v
        | none => default_effect }

/-- `OperationResult` dataclass.  The human-readable `message` is kept but
its numeric interpolation is elided (no claim concerns the message text). -/
structure OperationResult where
  success : Bool
  result_code : String
  message : String := ""
  attempts : ℕ := 0
  total_lights : ℕ := 0
  failed_lights : List String := []
  skipped_lights : List String := []
  elapsed_seconds : ℚ := 0
deriving DecidableEq, Repr

/-- A recorded dispatch: `_send_turn_off` over the collected entity ids, or
one `_send_turn_on` per group carrying the transition passed through. -/
inductive DispatchEvent where
  | sendOff (entity_ids : List String)
  | sendOn (group : LightGroup) (transition : Option ℚ)
deriving DecidableEq, Repr

/-- `LightController._send_commands`: an OFF round is one `turn_off` over
all entities of all groups; an ON round is one `turn_on` per group. -/
def send_commands (groups : List LightGroup) (target_state : TargetState)
    (transition : Option ℚ) : List DispatchEvent :=
  match target_state with
  | .OFF => [.sendOff (groups.flatMap LightGroup.entities)]
  | .ON => groups.map fun g => .sendOn g transition

/-- The environment of one `ensure_state` invocation: the state oracle as
observed at resolution time (phase 0) and after the sleep of retry round
`n` (phase `n + 1`), the elapsed monotonic time sampled at the top of each
round, and the elapsed time sampled once after the loop. -/
structure Env where
  oracle : ℕ → Oracle
  clock : ℕ → ℚ
  clockEnd : ℚ

/-- The verification filter of the retry loop: targets whose verification
result is neither `SUCCESS` nor `UNAVAILABLE` stay pending. -/
def still_pending (st : Oracle) (target_state : TargetState)
    (tolerances : ColorTolerance) (pending : List LightTarget) :
    List LightTarget :=
  pending.filter fun t =>
    decide (verify_light st t target_state tolerances ∉
      [VerificationResult.SUCCESS, VerificationResult.UNAVAILABLE])

/-- The retry loop of `ensure_state` (`while pending_targets and attempt <
max_retries`), with `fuel = max_retries - attempt`.  Returns the final
pending list, the final attempt counter, and the dispatches issued.  The
per-round sleep duration (`calculate_delay`) has no observable effect in
the embedding beyond the clock environment and is not recomputed here. -/
def retry_loop (env : Env) (target_state : TargetState)
    (tolerances : ColorTolerance) (cfg : RetryConfig) (transition : ℚ) :
    List LightTarget → ℕ → ℕ → List LightTarget × ℕ × List DispatchEvent
  | pending, attempt, 0 => (pending, attempt, [])
  | pending, attempt, fuel + 1 =>
    if pending = [] then (pending, attempt, [])
    else if cfg.max_runtime_seconds ≤ env.clock attempt then (pending, attempt, [])
    else
      let use_transition : Option ℚ :=
        if target_state = .ON ∧ attempt = 0 ∧ 0 < transition then some transition
        else none
      let groups := group_by_settings pending
      let events := send_commands groups target_state use_transition
      let next := still_pending (env.oracle (attempt + 1)) target_state tolerances pending
      let rest := retry_loop env target_state tolerances cfg transition next
        (attempt + 1) fuel
      (rest.1, rest.2.1, events ++ rest.2.2)

/-- The result assembly after the retry loop (`# Handle results`): TIMEOUT
when the budget is exhausted and targets remain, FAILED when targets remain
within budget, SUCCESS otherwise. -/
def finish_result (members skipped_entities : List String) (cfg : RetryConfig)
    (attempt : ℕ) (pending : List LightTarget) (elapsed : ℚ) : OperationResult :=
  let failed_entities := pending.map LightTarget.entity_id
  if cfg.max_runtime_seconds ≤ elapsed ∧ pending ≠ [] then
    { success := false
      result_code := RESULT_CODE_TIMEOUT
      message := "Timeout"
      attempts := attempt
      total_lights := members.length
      failed_lights := failed_entities
      skipped_lights := skipped_entities
      elapsed_seconds := elapsed }
  else if pending ≠ [] then
    { success := false
      result_code := RESULT_CODE_FAILED
      message := "Failed"
      attempts := attempt
      total_lights := members.length
      failed_lights := failed_entities
      skipped_lights := skipped_entities
      elapsed_seconds := elapsed }
  else
    { success := true
      result_code := RESULT_CODE_SUCCESS
      message := "Set lights"
      attempts := attempt
      total_lights := members.length
      skipped_lights := skipped_entities
      elapsed_seconds := elapsed }

/-- The keyword parameters of `LightController.ensure_state`, with the
source defaults.  `log_success` only toggles logbook output and is
omitted. -/
structure EnsureParams where
  entities : List String
  state_target : String := "on"
  default_brightness_pct : ℤ := 100
  default_rgb_color : Option (List ℤ) := none
  default_color_temp_kelvin : Option ℤ := none
  default_effect : Option String := none
  targets : List TargetOverride := []
  brightness_tolerance : ℤ := 3
  rgb_tolerance : ℤ := 10
  kelvin_tolerance : ℤ := 150
  transition : ℚ := 0
  delay_after_send : ℚ := 2
  max_retries : ℕ := 3
  max_runtime_seconds : ℚ := 60
  use_exponential_backoff : Bool := false
  max_backoff_seconds : ℚ := 30
  skip_verification : Bool := false

/-- `LightController.ensure_state`: the main entry point, returning the
operation result and the list of dispatches issued.  Validation failures
and `NO_VALID_ENTITIES` return before any dispatch; `skip_verification`
dispatches once and returns; otherwise the retry loop runs and the result
is assembled by `finish_result`. -/
def ensure_state (env : Env) (P : EnsureParams) :
    OperationResult × List DispatchEvent :=
  if P.entities = [] then
    ({ success := false, result_code := RESULT_CODE_ERROR,
       message := "No entities provided" }, [])
  else
    match TargetState.from_string P.state_target with
    | none =>
      ({ success := false, result_code := RESULT_CODE_ERROR,
         message := "Invalid state" }, [])
    | some target_state =>
      let tolerances : ColorTolerance :=
        { brightness := P.brightness_tolerance
          rgb := P.rgb_tolerance
          kelvin := P.kelvin_tolerance }
      let cfg : RetryConfig :=
        { max_retries := P.max_retries
          delay_after_send := P.delay_after_send
          max_runtime_seconds := P.max_runtime_seconds
          use_exponential_backoff := P.use_exponential_backoff
          max_backoff_seconds := P.max_backoff_seconds }
      let expanded := expand_entities (env.oracle 0) P.entities
      let members := expanded.1
      let skipped_entities := expanded.2
      if members = [] then
        ({ success := false, result_code := RESULT_CODE_NO_VALID_ENTITIES,
           message := "No valid light entities found",
           skipped_lights := skipped_entities }, [])
      else
        let overrides := buildOverrides P.targets
        let pending_targets := build_targets members overrides
          P.default_brightness_pct P.default_rgb_color
          P.default_color_temp_kelvin P.default_effect
        if P.skip_verification then
          let groups := group_by_settings pending_targets
          let use_transition : Option ℚ :=
            if target_state = .ON then some P.transition else none
          let events := send_commands groups target_state use_transition
          ({ success := true, result_code := RESULT_CODE_SUCCESS,
             message := "Fire-and-forget",
             total_lights := members.length,
             skipped_lights := skipped_entities,
             elapsed_seconds := env.clockEnd }, events)
        else
          let looped := retry_loop env target_state tolerances cfg P.transition
            pending_targets 0 P.max_retries
          (finish_result members skipped_entities cfg looped.2.1 looped.1
            env.clockEnd, looped.2.2)

/-! ### Properties of `pyDedup` (first-occurrence deduplication) -/

theorem mem_pyDedupAux (l : List String) :
    ∀ (seen : List String) (x : String),
      x ∈ pyDedupAux seen l ↔ x ∈ l ∧ x ∉ seen := by
  induction l with
  | nil => intro seen x; simp [pyDedupAux]
  | cons a l ih =>
    intro seen x
    by_cases h : a ∈ seen
    · simp only [pyDedupAux, if_pos h, ih, List.mem_cons]
      constructor
      · rintro ⟨hx, hs⟩; exact ⟨Or.inr hx, hs⟩
      · rintro ⟨hx, hs⟩
        rcases hx with rfl | hx
        · exact absurd h hs
        · exact ⟨hx, hs⟩
    · simp only [pyDedupAux, if_neg h, List.mem_cons, ih]
      constructor
      · rintro (rfl | ⟨hx, hs⟩)
        · exact ⟨Or.inl rfl, h⟩
        · exact ⟨Or.inr hx, fun hseen => hs (Or.inr hseen)⟩
      · rintro ⟨hx, hs⟩
        by_cases hxa : x = a
        · exact Or.inl hxa
        · rcases hx with rfl | hx
          · exact Or.inl rfl
          · refine Or.inr ⟨hx, ?_⟩
            simp only [List.mem_cons, not_or]
            exact ⟨hxa, hs⟩

theorem nodup_pyDedupAux (l : List String) :
    ∀ seen : List String, (pyDedupAux seen l).Nodup := by
  induction l with
  | nil => intro seen; simp [pyDedupAux]
  | cons a l ih =>
    intro seen
    by_cases h : a ∈ seen
    · simpa [pyDedupAux, if_pos h] using ih seen
    · simp only [pyDedupAux, if_neg h, List.nodup_cons]
      refine ⟨fun hmem => ?_, ih _⟩
      rcases (mem_pyDedupAux l (a :: seen) a).mp hmem with ⟨_, hns⟩
      exact hns (List.mem_cons_self a seen)

theorem pyDedupAux_sublist (l : List String) :
    ∀ seen : List String, List.Sublist (pyDedupAux seen l) l := by
  induction l with
  | nil => intro seen; simp [pyDedupAux]
  | cons a l ih =>
    intro seen
    by_cases h : a ∈ seen
    · simp only [pyDedupAux, if_pos h]
      exact (ih seen).trans (List.sublist_cons_self a l)
    · simp only [pyDedupAux, if_neg h]
      exact (ih (a :: seen)).cons₂ a

theorem mem_pyDedup {l : List String} {x : String} : x ∈ pyDedup l ↔ x ∈ l := by
  simp [pyDedup, mem_pyDedupAux]

theorem nodup_pyDedup (l : List String) : (pyDedup l).Nodup :=
  nodup_pyDedupAux l []

theorem pyDedup_sublist (l : List String) : List.Sublist (pyDedup l) l :=
  pyDedupAux_sublist l []

/-- The order of `pyDedupAux` is the order of first occurrences: relative
positions in the output match relative positions of first occurrences in
the input. -/
theorem pyDedupAux_indexOf_lt (l : List String) :
    ∀ (seen : List String) (x y : String),
      x ∈ pyDedupAux seen l → y ∈ pyDedupAux seen l →
      ((pyDedupAux seen l).indexOf x < (pyDedupAux seen l).indexOf y ↔
        l.indexOf x < l.indexOf y) := by
  induction l with
  | nil => intro seen x y hx _; simp [pyDedupAux] at hx
  | cons a l ih =>
    intro seen x y hx hy
    by_cases h : a ∈ seen
    · rw [pyDedupAux, if_pos h] at hx hy ⊢
      have hxs := (mem_pyDedupAux l seen x).mp hx
      have hys := (mem_pyDedupAux l seen y).mp hy
      have hxa : x ≠ a := fun e => hxs.2 (e ▸ h)
      have hya : y ≠ a := fun e => hys.2 (e ▸ h)
      rw [List.indexOf_cons_ne l (Ne.symm hxa), List.indexOf_cons_ne l (Ne.symm hya)]
      rw [ih seen x y hx hy]
      exact ⟨Nat.succ_lt_succ, Nat.lt_of_succ_lt_succ⟩
    · rw [pyDedupAux, if_neg h] at hx hy ⊢
      by_cases hxa : x = a
      · subst hxa
        rw [List.indexOf_cons_self, List.indexOf_cons_self]
        by_cases hya : y = x
        · subst hya; simp
        · have hyrest : y ∈ pyDedupAux (x :: seen) l := by
            rcases List.mem_cons.mp hy with rfl | hmem
            · exact absurd rfl hya
            · exact hmem
          rw [List.indexOf_cons_ne _ (Ne.symm hya),
            List.indexOf_cons_ne _ (Ne.symm hya)]
          simp [Nat.succ_pos]
      · have hxrest : x ∈ pyDedupAux (a :: seen) l := by
          rcases List.mem_cons.mp hx with rfl | hmem
          · exact absurd rfl hxa
          · exact hmem
        rw [List.indexOf_cons_ne _ (Ne.symm hxa), List.indexOf_cons_ne _ (Ne.symm hxa)]
        by_cases hya : y = a
        · subst hya
          rw [List.indexOf_cons_self, List.indexOf_cons_self]
          simp
        · have hyrest : y ∈ pyDedupAux (a :: seen) l := by
            rcases List.mem_cons.mp hy with rfl | hmem
            · exact absurd rfl hya
            · exact hmem
          rw [List.indexOf_cons_ne _ (Ne.symm hya), List.indexOf_cons_ne _ (Ne.symm hya)]
          have := ih (a :: seen) x y hxrest hyrest
          constructor
          · intro hlt
            exact Nat.succ_lt_succ (this.mp (Nat.lt_of_succ_lt_succ hlt))
          · intro hlt
            exact Nat.succ_lt_succ (this.mpr (Nat.lt_of_succ_lt_succ hlt))

theorem pyDedup_indexOf_lt {l : List String} {x y : String}
    (hx : x ∈ pyDedup l) (hy : y ∈ pyDedup l) :
    (pyDedup l).indexOf x < (pyDedup l).indexOf y ↔ l.indexOf x < l.indexOf y :=
  pyDedupAux_indexOf_lt l [] x y hx hy

/-! ### Properties of entity expansion -/

/-- Everything classified valid by `expand_entity` is available. -/
theorem mem_expand_entity_valid {st : Oracle} {e x : String}
    (hx : x ∈ (expand_entity st e).1) : is_available st x = true := by
  unfold expand_entity at hx
  by_cases hmem : (oracleAttrs st e).members ≠ []
  · rw [if_pos hmem] at hx
    exact (List.mem_filter.mp hx).2
  · rw [if_neg hmem] at hx
    by_cases hl : strStarts e "light." = true
    · rw [if_pos hl] at hx
      by_cases ha : is_available st e = true
      · rw [if_pos ha] at hx
        rcases List.mem_singleton.mp hx with rfl
        exact ha
      · rw [if_neg ha] at hx
        simp at hx
    · rw [if_neg hl] at hx
      simp at hx

/-- Everything classified skipped by `expand_entity` is unavailable. -/
theorem mem_expand_entity_skipped {st : Oracle} {e x : String}
    (hx : x ∈ (expand_entity st e).2) : is_available st x = false := by
  unfold expand_entity at hx
  by_cases hmem : (oracleAttrs st e).members ≠ []
  · rw [if_pos hmem] at hx
    have := (List.mem_filter.mp hx).2
    simpa using this
  · rw [if_neg hmem] at hx
    by_cases hl : strStarts e "light." = true
    · rw [if_pos hl] at hx
      by_cases ha : is_available st e = true
      · rw [if_pos ha] at hx
        simp at hx
      · rw [if_neg ha] at hx
        rcases List.mem_singleton.mp hx with rfl
        simpa using ha
    · rw [if_neg hl] at hx
      simp at hx

/-- **C9.** For every ordered list of caller references evaluated against a
fixed device-state oracle `st`, `expand_entities` returns a valid list and
a skipped list that are each duplicate-free, each a subsequence of the
corresponding raw expansion containing exactly its elements in
first-occurrence order, and no device id appears in both lists. -/
theorem spec_C9_expand_entities_dedup_disjoint (st : Oracle) (entities : List String) :
    (expand_entities st entities).1.Nodup ∧
    (expand_entities st entities).2.Nodup ∧
    List.Sublist (expand_entities st entities).1
      (entities.flatMap fun e => (expand_entity st e).1) ∧
    List.Sublist (expand_entities st entities).2
      (entities.flatMap fun e => (expand_entity st e).2) ∧
    (∀ x, x ∈ (expand_entities st entities).1 ↔
      x ∈ entities.flatMap fun e => (expand_entity st e).1) ∧
    (∀ x, x ∈ (expand_entities st entities).2 ↔
      x ∈ entities.flatMap fun e => (expand_entity st e).2) ∧
    (∀ x y, x ∈ (expand_entities st entities).1 → y ∈ (expand_entities st entities).1 →
      ((expand_entities st entities).1.indexOf x < (expand_entities st entities).1.indexOf y ↔
        (entities.flatMap fun e => (expand_entity st e).1).indexOf x <
          (entities.flatMap fun e => (expand_entity st e).1).indexOf y)) ∧
    (∀ x y, x ∈ (expand_entities st entities).2 → y ∈ (expand_entities st entities).2 →
      ((expand_entities st entities).2.indexOf x < (expand_entities st entities).2.indexOf y ↔
        (entities.flatMap fun e => (expand_entity st e).2).indexOf x <
          (entities.flatMap fun e => (expand_entity st e).2).indexOf y)) ∧
    (∀ x, x ∈ (expand_entities st entities).1 → x ∉ (expand_entities st entities).2) := by
  refine ⟨nodup_pyDedup _, nodup_pyDedup _, pyDedup_sublist _, pyDedup_sublist _,
    fun x => mem_pyDedup, fun x => mem_pyDedup,
    fun x y hx hy => pyDedup_indexOf_lt hx hy,
    fun x y hx hy => pyDedup_indexOf_lt hx hy, fun x hx hy => ?_⟩
  have hv : x ∈ entities.flatMap fun e => (expand_entity st e).1 := mem_pyDedup.mp hx
  have hs : x ∈ entities.flatMap fun e => (expand_entity st e).2 := mem_pyDedup.mp hy
  rcases List.mem_flatMap.mp hv with ⟨e1, _, he1⟩
  rcases List.mem_flatMap.mp hs with ⟨e2, _, he2⟩
  have h1 := mem_expand_entity_valid he1
  have h2 := mem_expand_entity_skipped he2
  rw [h1] at h2
  exact Bool.true_eq_false.mp h2

/-- Concrete witness for C9: a reference list with a duplicated available
light and one unavailable light. -/
def c9Oracle : Oracle := fun id =>
  if id = "light.a" then some { state := "on" }
  else if id = "light.b" then some { state := "unavailable" }
  else if id = "grp" then
    some { state := "on", attributes := { members := ["light.a", "light.b"] } }
  else none

theorem spec_C9_witness :
    (expand_entities c9Oracle ["light.a", "grp", "light.a"]).1.Nodup ∧
    "light.a" ∉ (expand_entities c9Oracle ["light.a", "grp", "light.a"]).2 := by
  refine ⟨(spec_C9_expand_entities_dedup_disjoint c9Oracle
    ["light.a", "grp", "light.a"]).1, ?_⟩
  exact (spec_C9_expand_entities_dedup_disjoint c9Oracle
    ["light.a", "grp", "light.a"]).2.2.2.2.2.2.2.2 "light.a" (by decide)

/-! ### C3: the retry delay law -/

/-- The backoff configuration of the spec's concrete backoff law. -/
def backoffDemoCfg : RetryConfig :=
  { delay_after_send := 2, max_backoff_seconds := 10, use_exponential_backoff := true }

/-- The same configuration without exponential backoff. -/
def noBackoffDemoCfg : RetryConfig :=
  { delay_after_send := 2, max_backoff_seconds := 10, use_exponential_backoff := false }

/-- **C3.** `calculate_delay` returns `delay_after_send` on attempt 0 and
whenever backoff is disabled, and `min(delay_after_send * 2^n,
max_backoff_seconds)` for attempt `n ≥ 1` under backoff; concretely, with
`delay_after_send = 2` and `max_backoff_seconds = 10` the delays at
attempts 0, 1, 2, 3, 5 are 2, 4, 8, 10, 10, and without backoff the delay
is 2 at every attempt. -/
theorem spec_C3_calculate_delay (c : RetryConfig) (n : ℕ) :
    (n = 0 → c.calculate_delay n = c.delay_after_send) ∧
    (c.use_exponential_backoff = false → c.calculate_delay n = c.delay_after_send) ∧
    (c.use_exponential_backoff = true → 1 ≤ n →
      c.calculate_delay n = min (c.delay_after_send * 2 ^ n) c.max_backoff_seconds) ∧
    backoffDemoCfg.calculate_delay 0 = 2 ∧
    backoffDemoCfg.calculate_delay 1 = 4 ∧
    backoffDemoCfg.calculate_delay 2 = 8 ∧
    backoffDemoCfg.calculate_delay 3 = 10 ∧
    backoffDemoCfg.calculate_delay 5 = 10 ∧
    (∀ m : ℕ, noBackoffDemoCfg.calculate_delay m = 2) := by
  refine ⟨?_, ?_, ?_, ?_, ?_, ?_, ?_, ?_, ?_⟩
  · rintro rfl
    simp [RetryConfig.calculate_delay]
  · intro h
    simp [RetryConfig.calculate_delay, h]
  · intro h hn
    rw [RetryConfig.calculate_delay, if_pos ⟨h, hn⟩]
  · norm_num [RetryConfig.calculate_delay, backoffDemoCfg]
  · norm_num [RetryConfig.calculate_delay, backoffDemoCfg, min_def]
  · norm_num [RetryConfig.calculate_delay, backoffDemoCfg, min_def]
  · norm_num [RetryConfig.calculate_delay, backoffDemoCfg, min_def]
  · norm_num [RetryConfig.calculate_delay, backoffDemoCfg, min_def]
  · intro m
    simp [RetryConfig.calculate_delay, noBackoffDemoCfg]

theorem spec_C3_witness :
    backoffDemoCfg.calculate_delay 1 =
      min (backoffDemoCfg.delay_after_send * 2 ^ 1) backoffDemoCfg.max_backoff_seconds ∧
    backoffDemoCfg.calculate_delay 0 = backoffDemoCfg.delay_after_send :=
  ⟨(spec_C3_calculate_delay backoffDemoCfg 1).2.2.1 rfl (by norm_num),
   (spec_C3_calculate_delay backoffDemoCfg 0).1 rfl⟩

/-! ### C8: RGB wins over kelvin in the ON payload -/

/-- **C8.** When both `rgb_color` and `color_temp_kelvin` are set on a
target, the ON payload carries the rgb value and omits the kelvin value
(kelvin is emitted only when rgb is absent), while both fields remain
recorded on the target itself. -/
theorem spec_C8_rgb_wins_payload (t : LightTarget) (tr : Option ℚ)
    (rgb : List ℤ) (k : ℤ)
    (hrgb : t.rgb_color = some rgb) (hk : t.color_temp_kelvin = some k) :
    (t.to_service_data tr).rgb_color = some rgb ∧
    (t.to_service_data tr).color_temp_kelvin = none ∧
    t.rgb_color = some rgb ∧ t.color_temp_kelvin = some k ∧
    (∀ (t2 : LightTarget) (tr2 : Option ℚ),
      (t2.to_service_data tr2).color_temp_kelvin ≠ none → t2.rgb_color = none) := by
  refine ⟨?_, ?_, hrgb, hk, ?_⟩
  · simp [LightTarget.to_service_data, mixin_to_service_data, hrgb]
  · simp [LightTarget.to_service_data, mixin_to_service_data, hrgb]
  · intro t2 tr2 hsent
    by_cases h : t2.rgb_color = none
    · exact h
    · exfalso
      apply hsent
      simp [LightTarget.to_service_data, mixin_to_service_data, h]

/-- A target requesting both a color and a color temperature. -/
def c8Target : LightTarget :=
  { entity_id := "light.a", brightness_pct := 80,
    rgb_color := some [255, 0, 0], color_temp_kelvin := some 4000 }

theorem spec_C8_witness :
    (c8Target.to_service_data none).rgb_color = some [255, 0, 0] ∧
    (c8Target.to_service_data none).color_temp_kelvin = none :=
  ⟨(spec_C8_rgb_wins_payload c8Target none [255, 0, 0] 4000 rfl rfl).1,
   (spec_C8_rgb_wins_payload c8Target none [255, 0, 0] 4000 rfl rfl).2.1⟩

/-! ### C7: brightness verification -/

/-- The C7 concrete scenario: the device reports raw brightness 191 while
75% is requested with tolerance 3. -/
def c7Oracle : Oracle := fun id =>
  if id = "light.a" then
    some { state := "on", attributes := { brightness := some 191 } }
  else none

/-- The C7 concrete target. -/
def c7Target : LightTarget := { entity_id := "light.a", brightness_pct := 75 }

/-- **C7.** For an ON verification of a device whose state record holds raw
brightness `raw`, the brightness check accepts exactly when
`round(raw / 255 * 100)` lies within `brightness_pct ± tolerance`; a
failing check makes `verify_light` return `WRONG_BRIGHTNESS`; and the
concrete scenario (raw 191, target 75%, tolerance 3) verifies `SUCCESS`. -/
theorem spec_C7_brightness_rounding (st : Oracle) (t : LightTarget)
    (tol : ColorTolerance) (s : StateObj) (raw : ℤ)
    (hst : st t.entity_id = some s) (hbr : s.attributes.brightness = some raw) :
    (verify_brightness st t.entity_id t.brightness_pct tol.brightness = true ↔
      (t.brightness_pct - tol.brightness ≤ pyRound ((raw : ℚ) / 255 * 100) ∧
        pyRound ((raw : ℚ) / 255 * 100) ≤ t.brightness_pct + tol.brightness)) ∧
    (s.state = "on" →
      verify_brightness st t.entity_id t.brightness_pct tol.brightness = false →
      verify_light st t .ON tol = .WRONG_BRIGHTNESS) ∧
    verify_light c7Oracle c7Target .ON { brightness := 3 } = .SUCCESS := by
  refine ⟨?_, ?_, ?_⟩
  · simp [verify_brightness, oracleAttrs, hst, hbr]
  · intro hon hfail
    simp [verify_light, hst, hon, hfail]
  · simp [verify_light, c7Oracle, c7Target, verify_brightness, oracleAttrs]
    norm_num [pyRound]

theorem spec_C7_witness :
    verify_brightness c7Oracle "light.a" 75 3 = true ∧
    verify_light c7Oracle c7Target .ON { brightness := 3 } = .SUCCESS := by
  have h := spec_C7_brightness_rounding c7Oracle c7Target { brightness := 3 }
    { state := "on", attributes := { brightness := some 191 } } 191 rfl rfl
  refine ⟨h.1.mpr ?_, h.2.2⟩
  constructor
  · norm_num [pyRound, c7Target]
  · norm_num [pyRound, c7Target]

/-! ### C1: the color verdict

The claim asserts that `WRONG_COLOR` is returned whenever every requested,
applicable check fails — in particular for a target requesting only
`rgb_color` on an RGB-capable device reporting an out-of-tolerance color.
In the source, a check that is *not requested* also counts as satisfied
(`rgb_ok`/`kelvin_ok` default to `True`), so that scenario verifies
`SUCCESS`; `WRONG_COLOR` requires both representations to be requested,
applicable and failing. -/

/-- A device supporting RGB only, on at full brightness, reporting blue. -/
def c1Oracle : Oracle := fun id =>
  if id = "light.a" then
    some { state := "on",
           attributes := { brightness := some 255,
                           rgb_color := some [0, 0, 255],
                           supported_color_modes := ["rgb"] } }
  else none

/-- A target requesting only red, no color temperature. -/
def c1Target : LightTarget :=
  { entity_id := "light.a", brightness_pct := 100, rgb_color := some [255, 0, 0] }

/-- **C1, counterexample.** Only `rgb_color` is requested, the device is
on with brightness in tolerance and supports RGB, the requested RGB check
is applicable and fails — yet the verdict is `SUCCESS`, not the
`WRONG_COLOR` the claim requires. -/
theorem spec_C1_counterexample :
    c1Target.rgb_color = some [255, 0, 0] ∧
    c1Target.color_temp_kelvin = none ∧
    (c1Oracle "light.a").map StateObj.state = some "on" ∧
    verify_brightness c1Oracle "light.a" c1Target.brightness_pct 3 = true ∧
    verify_rgb c1Oracle "light.a" c1Target.rgb_color 10 = some false ∧
    verify_light c1Oracle c1Target .ON {} = .SUCCESS ∧
    VerificationResult.SUCCESS ≠ VerificationResult.WRONG_COLOR := by
  refine ⟨rfl, rfl, rfl, ?_, by decide, ?_, by decide⟩
  · simp [verify_brightness, oracleAttrs, c1Oracle, c1Target]
    norm_num [pyRound]
  · simp [verify_light, c1Oracle, c1Target, verify_brightness, oracleAttrs]
    norm_num [pyRound]

/-- **C1, amended.** For an ON verification of a device that is on with
brightness in tolerance and at least one color representation requested:
a check that is not applicable *or not requested* counts as satisfied, the
verdict is `SUCCESS` if at least one of the two checks is satisfied, and
`WRONG_COLOR` is returned exactly when both representations are requested
and both requested checks are applicable and fail. -/
theorem spec_C1_amended_color_verdict (st : Oracle) (t : LightTarget)
    (tol : ColorTolerance) (s : StateObj)
    (hst : st t.entity_id = some s) (hon : s.state = "on")
    (hbr : verify_brightness st t.entity_id t.brightness_pct tol.brightness = true)
    (hreq : t.rgb_color ≠ none ∨ t.color_temp_kelvin ≠ none) :
    (verify_light st t .ON tol = .WRONG_COLOR ↔
      ((t.rgb_color ≠ none ∧
          verify_rgb st t.entity_id t.rgb_color tol.rgb = some false) ∧
       (t.color_temp_kelvin ≠ none ∧
          verify_kelvin st t.entity_id t.color_temp_kelvin tol.kelvin = some false))) ∧
    (verify_light st t .ON tol = .SUCCESS ∨ verify_light st t .ON tol = .WRONG_COLOR) := by
  rcases hr : t.rgb_color with _ | r
  · rcases hk : t.color_temp_kelvin with _ | k
    · rw [hr] at hreq
      rw [hk] at hreq
      rcases hreq with h | h
      · exact absurd rfl h
      · exact absurd rfl h
    · have hv : verify_light st t .ON tol = .SUCCESS := by
        simp [verify_light, hst, hon, hbr, hr, hk]
      refine ⟨?_, Or.inl hv⟩
      rw [hv]
      simp [hr]
  · rcases hk : t.color_temp_kelvin with _ | k
    · have hv : verify_light st t .ON tol = .SUCCESS := by
        simp [verify_light, hst, hon, hbr, hr, hk]
      refine ⟨?_, Or.inl hv⟩
      rw [hv]
      simp [hk]
    · by_cases hvr : verify_rgb st t.entity_id (some r) tol.rgb = some false
      · by_cases hvk : verify_kelvin st t.entity_id (some k) tol.kelvin = some false
        · have hv : verify_light st t .ON tol = .WRONG_COLOR := by
            simp [verify_light, hst, hon, hbr, hr, hk, hvr, hvk]
          refine ⟨?_, Or.inr hv⟩
          rw [hv]
          simp [hr, hk, hvr, hvk]
        · have hv : verify_light st t .ON tol = .SUCCESS := by
            simp [verify_light, hst, hon, hbr, hr, hk, hvk]
          refine ⟨?_, Or.inl hv⟩
          rw [hv]
          simp [hr, hk, hvk]
      · have hv : verify_light st t .ON tol = .SUCCESS := by
          simp [verify_light, hst, hon, hbr, hr, hk, hvr]
        refine ⟨?_, Or.inl hv⟩
        rw [hv]
        simp [hr, hk, hvr]

/-- A device supporting RGB and color temperature, reporting blue at
6500 K. -/
def c1BothOracle : Oracle := fun id =>
  if id = "light.b" then
    some { state := "on",
           attributes := { brightness := some 255,
                           rgb_color := some [0, 0, 255],
                           supported_color_modes := ["rgb", "color_temp"],
                           color_temp_kelvin := some 6500 } }
  else none

/-- A target requesting red at 2700 K: both representations requested and
both wrong. -/
def c1BothTarget : LightTarget :=
  { entity_id := "light.b", brightness_pct := 100,
    rgb_color := some [255, 0, 0], color_temp_kelvin := some 2700 }

theorem spec_C1_witness :
    verify_light c1BothOracle c1BothTarget .ON {} = .WRONG_COLOR := by
  have hb : verify_brightness c1BothOracle "light.b" 100 3 = true := by
    simp [verify_brightness, oracleAttrs, c1BothOracle]
    norm_num [pyRound]
  have h := (spec_C1_amended_color_verdict c1BothOracle c1BothTarget {}
    { state := "on",
      attributes := { brightness := some 255,
                      rgb_color := some [0, 0, 255],
                      supported_color_modes := ["rgb", "color_temp"],
                      color_temp_kelvin := some 6500 } }
    rfl rfl hb (Or.inl (by decide))).1
  exact h.mpr ⟨⟨by decide, by decide⟩, ⟨by decide, by decide⟩⟩

/-! ### C4: batching is a partition refined exactly by the settings key -/

/-- All entities stored in an association list of groups, in order. -/
def assocEntities (acc : List (GroupKey × LightGroup)) : List String :=
  acc.flatMap fun p => p.2.entities

theorem assocEntities_cons (k : GroupKey) (g : LightGroup)
    (l : List (GroupKey × LightGroup)) :
    assocEntities ((k, g) :: l) = g.entities ++ assocEntities l := by
  simp [assocEntities]

theorem assocEntities_addToGroups (acc : List (GroupKey × LightGroup))
    (t : LightTarget) :
    List.Perm (assocEntities (addToGroups acc t))
      (assocEntities acc ++ [t.entity_id]) := by
  induction acc with
  | nil => simp [addToGroups, assocEntities, newGroup]
  | cons p rest ih =>
    obtain ⟨k, g⟩ := p
    by_cases h : k = targetKey t
    · simp only [addToGroups, if_pos h, assocEntities_cons, appendEntity]
      have h1 : (g.entities ++ [t.entity_id]) ++ assocEntities rest
          = g.entities ++ ([t.entity_id] ++ assocEntities rest) := by
        simp [List.append_assoc]
      have h2 : (g.entities ++ assocEntities rest) ++ [t.entity_id]
          = g.entities ++ (assocEntities rest ++ [t.entity_id]) := by
        simp [List.append_assoc]
      rw [h1, h2]
      exact List.Perm.append_left _ List.perm_append_comm
    · simp only [addToGroups, if_neg h, assocEntities_cons]
      have h2 : (g.entities ++ assocEntities rest) ++ [t.entity_id]
          = g.entities ++ (assocEntities rest ++ [t.entity_id]) := by
        simp [List.append_assoc]
      rw [h2]
      exact List.Perm.append_left _ ih

theorem assocEntities_foldl (ts : List LightTarget) :
    ∀ acc : List (GroupKey × LightGroup),
      List.Perm (assocEntities (ts.foldl addToGroups acc))
        (assocEntities acc ++ ts.map LightTarget.entity_id) := by
  induction ts with
  | nil => intro acc; simp
  | cons t ts ih =>
    intro acc
    have h1 := ih (addToGroups acc t)
    have h2 := List.Perm.append_right (ts.map LightTarget.entity_id)
      (assocEntities_addToGroups acc t)
    have h3 := h1.trans h2
    rw [List.foldl_cons]
    simpa [List.append_assoc] using h3

theorem keys_addToGroups (acc : List (GroupKey × LightGroup)) (t : LightTarget) :
    (addToGroups acc t).map Prod.fst =
      if targetKey t ∈ acc.map Prod.fst then acc.map Prod.fst
      else acc.map Prod.fst ++ [targetKey t] := by
  induction acc with
  | nil => simp [addToGroups]
  | cons p rest ih =>
    obtain ⟨k, g⟩ := p
    by_cases h : k = targetKey t
    · subst h
      simp [addToGroups]
    · simp only [addToGroups, if_neg h, List.map_cons, ih]
      by_cases hm : targetKey t ∈ rest.map Prod.fst
      · rw [if_pos hm, if_pos (List.mem_cons_of_mem _ hm)]
      · have hnc : targetKey t ∉ (k :: rest.map Prod.fst) := by
          simp only [List.mem_cons, not_or]
          exact ⟨fun he => h he.symm, hm⟩
        rw [if_neg hm, if_neg hnc, List.cons_append]

theorem keys_nodup_foldl (ts : List LightTarget) :
    ∀ acc : List (GroupKey × LightGroup),
      (acc.map Prod.fst).Nodup → ((ts.foldl addToGroups acc).map Prod.fst).Nodup := by
  induction ts with
  | nil => intro acc h; exact h
  | cons t ts ih =>
    intro acc h
    rw [List.foldl_cons]
    apply ih
    rw [keys_addToGroups]
    by_cases hm : targetKey t ∈ acc.map Prod.fst
    · rw [if_pos hm]; exact h
    · rw [if_neg hm]
      simp [List.nodup_append, h, hm]

theorem assoc_key_unique {acc : List (GroupKey × LightGroup)}
    (h : (acc.map Prod.fst).Nodup) {k : GroupKey} {g1 g2 : LightGroup}
    (h1 : (k, g1) ∈ acc) (h2 : (k, g2) ∈ acc) : g1 = g2 := by
  induction acc with
  | nil => simp at h1
  | cons p rest ih =>
    obtain ⟨k0, g0⟩ := p
    rw [List.map_cons, List.nodup_cons] at h
    rcases List.mem_cons.mp h1 with he1 | hm1
    · rcases List.mem_cons.mp h2 with he2 | hm2
      · have hg1 : g1 = g0 := congrArg Prod.snd he1
        have hg2 : g2 = g0 := congrArg Prod.snd he2
        rw [hg1, hg2]
      · exfalso
        have hk : k = k0 := congrArg Prod.fst he1
        apply h.1
        rw [← hk]
        exact List.mem_map.mpr ⟨(k, g2), hm2, rfl⟩
    · rcases List.mem_cons.mp h2 with he2 | hm2
      · exfalso
        have hk : k = k0 := congrArg Prod.fst he2
        apply h.1
        rw [← hk]
        exact List.mem_map.mpr ⟨(k, g1), hm1, rfl⟩
      · exact ih h.2 hm1 hm2

theorem mem_addToGroups_cases {acc : List (GroupKey × LightGroup)}
    {t : LightTarget} {k : GroupKey} {g : LightGroup}
    (h : (k, g) ∈ addToGroups acc t) :
    (k, g) ∈ acc ∨ (k = targetKey t ∧ g = newGroup t) ∨
      (∃ g0, (k, g0) ∈ acc ∧ k = targetKey t ∧ g = appendEntity g0 t.entity_id) := by
  induction acc with
  | nil =>
    have he := List.mem_singleton.mp h
    exact Or.inr (Or.inl ⟨congrArg Prod.fst he, congrArg Prod.snd he⟩)
  | cons p rest ih =>
    obtain ⟨k0, g0⟩ := p
    by_cases he : k0 = targetKey t
    · rw [addToGroups, if_pos he] at h
      rcases List.mem_cons.mp h with hh | hm
      · have hk : k = k0 := congrArg Prod.fst hh
        have hg : g = appendEntity g0 t.entity_id := congrArg Prod.snd hh
        refine Or.inr (Or.inr ⟨g0, ?_, hk.trans he, hg⟩)
        rw [hk]
        exact List.mem_cons_self _ _
      · exact Or.inl (List.mem_cons_of_mem _ hm)
    · rw [addToGroups, if_neg he] at h
      rcases List.mem_cons.mp h with hh | hm
      · exact Or.inl (List.mem_cons.mpr (Or.inl hh))
      · rcases ih hm with h1 | h2 | ⟨g1, hg1, hk1, hg⟩
        · exact Or.inl (List.mem_cons_of_mem _ h1)
        · exact Or.inr (Or.inl h2)
        · exact Or.inr (Or.inr ⟨g1, List.mem_cons_of_mem _ hg1, hk1, hg⟩)

theorem entities_sound (ts : List LightTarget) :
    ∀ (acc : List (GroupKey × LightGroup)) (P : GroupKey → String → Prop),
      (∀ k g, (k, g) ∈ acc → ∀ id ∈ g.entities, P k id) →
      (∀ t ∈ ts, P (targetKey t) t.entity_id) →
      ∀ k g, (k, g) ∈ ts.foldl addToGroups acc → ∀ id ∈ g.entities, P k id := by
  induction ts with
  | nil => intro acc P hacc _ k g hkg; exact hacc k g hkg
  | cons t ts ih =>
    intro acc P hacc hts k g hkg id hid
    rw [List.foldl_cons] at hkg
    refine ih (addToGroups acc t) P ?_
      (fun u hu => hts u (List.mem_cons_of_mem _ hu)) k g hkg id hid
    intro k' g' hk'g' id' hid'
    rcases mem_addToGroups_cases hk'g' with hold | ⟨hk, hg⟩ | ⟨g0, hg0, hk, hg⟩
    · exact hacc k' g' hold id' hid'
    · subst hg
      simp only [newGroup, List.mem_singleton] at hid'
      subst hid'
      rw [hk]
      exact hts t (List.mem_cons_self _ _)
    · subst hg
      simp only [appendEntity, List.mem_append, List.mem_singleton] at hid'
      rcases hid' with h0 | rfl
      · exact hacc k' g0 hg0 id' h0
      · rw [hk]
        exact hts t (List.mem_cons_self _ _)

theorem addToGroups_contains_self (acc : List (GroupKey × LightGroup))
    (t : LightTarget) :
    ∃ g, (targetKey t, g) ∈ addToGroups acc t ∧ t.entity_id ∈ g.entities := by
  induction acc with
  | nil => exact ⟨newGroup t, List.mem_singleton.mpr rfl, by simp [newGroup]⟩
  | cons p rest ih =>
    obtain ⟨k0, g0⟩ := p
    by_cases he : k0 = targetKey t
    · subst he
      refine ⟨appendEntity g0 t.entity_id, ?_, by simp [appendEntity]⟩
      rw [addToGroups, if_pos rfl]
      exact List.mem_cons_self _ _
    · rcases ih with ⟨g, hg, hid⟩
      refine ⟨g, ?_, hid⟩
      rw [addToGroups, if_neg he]
      exact List.mem_cons_of_mem _ hg

theorem addToGroups_mono (t : LightTarget) :
    ∀ (acc : List (GroupKey × LightGroup)) {k : GroupKey} {g : LightGroup}
      {id : String}, (k, g) ∈ acc → id ∈ g.entities →
      ∃ g', (k, g') ∈ addToGroups acc t ∧ id ∈ g'.entities := by
  intro acc
  induction acc with
  | nil => intro k g id h1 _; simp at h1
  | cons p rest ih =>
    intro k g id h1 h2
    obtain ⟨k0, g0⟩ := p
    by_cases he : k0 = targetKey t
    · rw [addToGroups, if_pos he]
      rcases List.mem_cons.mp h1 with hh | hm
      · have hk : k = k0 := congrArg Prod.fst hh
        have hg : g = g0 := congrArg Prod.snd hh
        refine ⟨appendEntity g0 t.entity_id, ?_, ?_⟩
        · rw [hk]
          exact List.mem_cons_self _ _
        · simp only [appendEntity, List.mem_append]
          left
          rw [← hg]
          exact h2
      · exact ⟨g, List.mem_cons_of_mem _ hm, h2⟩
    · rw [addToGroups, if_neg he]
      rcases List.mem_cons.mp h1 with hh | hm
      · exact ⟨g, List.mem_cons.mpr (Or.inl hh), h2⟩
      · rcases ih hm h2 with ⟨g', hg', hid'⟩
        exact ⟨g', List.mem_cons_of_mem _ hg', hid'⟩

theorem foldl_addToGroups_mono (ts : List LightTarget) :
    ∀ (acc : List (GroupKey × LightGroup)) {k : GroupKey} {g : LightGroup}
      {id : String}, (k, g) ∈ acc → id ∈ g.entities →
      ∃ g', (k, g') ∈ ts.foldl addToGroups acc ∧ id ∈ g'.entities := by
  induction ts with
  | nil => intro acc k g id h1 h2; exact ⟨g, h1, h2⟩
  | cons t ts ih =>
    intro acc k g id h1 h2
    rw [List.foldl_cons]
    rcases addToGroups_mono t acc h1 h2 with ⟨g', hg', hid'⟩
    exact ih (addToGroups acc t) hg' hid'

theorem foldl_contains_self (ts : List LightTarget) :
    ∀ acc : List (GroupKey × LightGroup), ∀ t ∈ ts,
      ∃ g, (targetKey t, g) ∈ ts.foldl addToGroups acc ∧
        t.entity_id ∈ g.entities := by
  induction ts with
  | nil => intro acc t ht; simp at ht
  | cons t' ts ih =>
    intro acc t ht
    rw [List.foldl_cons]
    rcases List.mem_cons.mp ht with rfl | hm
    · rcases addToGroups_contains_self acc t with ⟨g, hg, hid⟩
      exact foldl_addToGroups_mono ts (addToGroups acc t) hg hid
    · exact ih (addToGroups acc t') t hm

theorem rgbKey_inj {x y : Option (List ℤ)} (hx : x ≠ some []) (hy : y ≠ some []) :
    rgbKey x = rgbKey y → x = y := by
  intro h
  cases x with
  | none =>
    cases y with
    | none => rfl
    | some l =>
      by_cases hl : l = []
      · subst hl; exact absurd rfl hy
      · simp only [rgbKey] at h
        rw [if_neg hl] at h
        exact Option.noConfusion h
  | some m =>
    cases y with
    | none =>
      by_cases hm : m = []
      · subst hm; exact absurd rfl hx
      · simp only [rgbKey] at h
        rw [if_neg hm] at h
        exact Option.noConfusion h
    | some l =>
      by_cases hm : m = []
      · subst hm; exact absurd rfl hx
      · by_cases hl : l = []
        · subst hl; exact absurd rfl hy
        · simp only [rgbKey] at h
          rw [if_neg hm, if_neg hl] at h
          exact h

theorem targetKey_eq_iff {t1 t2 : LightTarget}
    (h1 : t1.rgb_color ≠ some []) (h2 : t2.rgb_color ≠ some []) :
    targetKey t1 = targetKey t2 ↔
      (t1.brightness_pct = t2.brightness_pct ∧ t1.rgb_color = t2.rgb_color ∧
       t1.color_temp_kelvin = t2.color_temp_kelvin ∧ t1.effect = t2.effect) := by
  constructor
  · intro h
    have hb : t1.brightness_pct = t2.brightness_pct := congrArg Prod.fst h
    have hr : rgbKey t1.rgb_color = rgbKey t2.rgb_color :=
      congrArg (fun p : GroupKey => p.2.1) h
    have hk : t1.color_temp_kelvin = t2.color_temp_kelvin :=
      congrArg (fun p : GroupKey => p.2.2.1) h
    have he : t1.effect = t2.effect := congrArg (fun p : GroupKey => p.2.2.2) h
    exact ⟨hb, rgbKey_inj h1 h2 hr, hk, he⟩
  · rintro ⟨hb, hr, hk, he⟩
    unfold targetKey
    rw [hb, hr, hk, he]

theorem group_by_settings_flatMap (ts : List LightTarget) :
    (group_by_settings ts).flatMap LightGroup.entities =
      assocEntities (ts.foldl addToGroups []) := by
  rw [group_by_settings, List.flatMap_map]
  rfl

/-- **C4.** The batches produced by `_group_by_settings` partition the
pending targets (the concatenation of all batch member lists is a
permutation of the targets' device ids), and — for well-formed targets with
pairwise-distinct ids — two targets share a batch exactly when they agree
on all four of brightness, rgb color, color temperature and effect. -/
theorem spec_C4_grouping_partition (ts : List LightTarget)
    (hids : (ts.map LightTarget.entity_id).Nodup)
    (hrgb : ∀ t ∈ ts, t.rgb_color ≠ some []) :
    List.Perm ((group_by_settings ts).flatMap LightGroup.entities)
      (ts.map LightTarget.entity_id) ∧
    ∀ t1 ∈ ts, ∀ t2 ∈ ts,
      ((∃ g, g ∈ group_by_settings ts ∧ t1.entity_id ∈ g.entities ∧
          t2.entity_id ∈ g.entities) ↔
        (t1.brightness_pct = t2.brightness_pct ∧ t1.rgb_color = t2.rgb_color ∧
         t1.color_temp_kelvin = t2.color_temp_kelvin ∧ t1.effect = t2.effect)) := by
  constructor
  · rw [group_by_settings_flatMap]
    simpa using assocEntities_foldl ts []
  · intro t1 h1 t2 h2
    constructor
    · rintro ⟨g, hgmem, hid1, hid2⟩
      rcases List.mem_map.mp hgmem with ⟨⟨k, g'⟩, hkg, hgg⟩
      have hge : g' = g := hgg
      subst hge
      have hsound := entities_sound ts []
        (fun k id => ∃ u, u ∈ ts ∧ u.entity_id = id ∧ targetKey u = k)
        (by intro k g hg; simp at hg)
        (fun u hu => ⟨u, hu, rfl, rfl⟩)
      rcases hsound k g' hkg t1.entity_id hid1 with ⟨u1, hu1, hequ1, hku1⟩
      rcases hsound k g' hkg t2.entity_id hid2 with ⟨u2, hu2, hequ2, hku2⟩
      have hu1t : u1 = t1 := List.inj_on_of_nodup_map hids hu1 h1 hequ1
      have hu2t : u2 = t2 := List.inj_on_of_nodup_map hids hu2 h2 hequ2
      have hkey : targetKey t1 = targetKey t2 := by
        rw [← hu1t, ← hu2t, hku1, hku2]
      exact (targetKey_eq_iff (hrgb t1 h1) (hrgb t2 h2)).mp hkey
    · rintro ⟨hb, hr, hk, he⟩
      have hkey : targetKey t1 = targetKey t2 :=
        (targetKey_eq_iff (hrgb t1 h1) (hrgb t2 h2)).mpr ⟨hb, hr, hk, he⟩
      rcases foldl_contains_self ts [] t1 h1 with ⟨g1, hg1, hid1⟩
      rcases foldl_contains_self ts [] t2 h2 with ⟨g2, hg2, hid2⟩
      have hnodupk := keys_nodup_foldl ts [] (by simp)
      have hgeq : g1 = g2 := assoc_key_unique hnodupk hg1 (by rw [hkey]; exact hg2)
      refine ⟨g1, List.mem_map.mpr ⟨(targetKey t1, g1), hg1, rfl⟩, hid1, ?_⟩
      rw [hgeq]
      exact hid2

/-- Targets for the C4 witness: two identical settings, one different. -/
def c4Targets : List LightTarget :=
  [{ entity_id := "light.a", brightness_pct := 75 },
   { entity_id := "light.b", brightness_pct := 75 },
   { entity_id := "light.c", brightness_pct := 50 }]

theorem spec_C4_witness :
    List.Perm ((group_by_settings c4Targets).flatMap LightGroup.entities)
      (c4Targets.map LightTarget.entity_id) ∧
    ∃ g, g ∈ group_by_settings c4Targets ∧ "light.a" ∈ g.entities ∧
      "light.b" ∈ g.entities := by
  have h := spec_C4_grouping_partition c4Targets (by decide) (by decide)
  refine ⟨h.1, ?_⟩
  exact (h.2 { entity_id := "light.a", brightness_pct := 75 } (by decide)
    { entity_id := "light.b", brightness_pct := 75 } (by decide)).mpr
    ⟨by decide, by decide, by decide, by decide⟩

/-! ### C5: the pending set shrinks, removal exactly on SUCCESS/UNAVAILABLE -/

theorem still_pending_sublist (st : Oracle) (target_state : TargetState)
    (tol : ColorTolerance) (pending : List LightTarget) :
    List.Sublist (still_pending st target_state tol pending) pending :=
  List.filter_sublist _

theorem mem_still_pending (st : Oracle) (target_state : TargetState)
    (tol : ColorTolerance) {pending : List LightTarget} {t : LightTarget}
    (ht : t ∈ pending) :
    t ∈ still_pending st target_state tol pending ↔
      ¬(verify_light st t target_state tol = .SUCCESS ∨
        verify_light st t target_state tol = .UNAVAILABLE) := by
  simp [still_pending, List.mem_filter, ht]

theorem retry_loop_pending_sublist (env : Env) (target_state : TargetState)
    (tol : ColorTolerance) (cfg : RetryConfig) (transition : ℚ) :
    ∀ (fuel attempt : ℕ) (pending : List LightTarget),
      List.Sublist
        (retry_loop env target_state tol cfg transition pending attempt fuel).1
        pending := by
  intro fuel
  induction fuel with
  | zero =>
    intro attempt pending
    rw [retry_loop]
  | succ fuel ih =>
    intro attempt pending
    rw [retry_loop]
    by_cases hp : pending = []
    · rw [if_pos hp]
    · rw [if_neg hp]
      by_cases hc : cfg.max_runtime_seconds ≤ env.clock attempt
      · rw [if_pos hc]
      · rw [if_neg hc]
        exact (ih (attempt + 1) _).trans (still_pending_sublist _ _ _ _)

/-- **C5.** After each verification round the pending list is a sublist of
the previous one, a pending target stays pending exactly when its
verification outcome is neither `SUCCESS` nor `UNAVAILABLE`, and the
pending list produced by any run of the retry loop is a sublist of the
initial one (the working set never grows). -/
theorem spec_C5_pending_shrinks (st : Oracle) (target_state : TargetState)
    (tol : ColorTolerance) (pending : List LightTarget) :
    List.Sublist (still_pending st target_state tol pending) pending ∧
    (∀ t ∈ pending,
      t ∈ still_pending st target_state tol pending ↔
        ¬(verify_light st t target_state tol = .SUCCESS ∨
          verify_light st t target_state tol = .UNAVAILABLE)) ∧
    ∀ (env : Env) (cfg : RetryConfig) (transition : ℚ) (attempt fuel : ℕ),
      List.Sublist
        (retry_loop env target_state tol cfg transition pending attempt fuel).1
        pending :=
  ⟨still_pending_sublist st target_state tol pending,
   fun _ ht => mem_still_pending st target_state tol ht,
   fun env cfg transition attempt fuel =>
     retry_loop_pending_sublist env target_state tol cfg transition fuel attempt pending⟩

/-- A device stuck off while its mate succeeds, for the C5 witness. -/
def c5Oracle : Oracle := fun id =>
  if id = "light.off" then some { state := "off" }
  else if id = "light.gone" then some { state := "unavailable" }
  else none

theorem spec_C5_witness :
    { entity_id := "light.off", brightness_pct := 100 } ∈
      still_pending c5Oracle .ON {}
        [{ entity_id := "light.off", brightness_pct := 100 },
         { entity_id := "light.gone", brightness_pct := 100 }] ∧
    ({ entity_id := "light.gone", brightness_pct := 100 } : LightTarget) ∉
      still_pending c5Oracle .ON {}
        [{ entity_id := "light.off", brightness_pct := 100 },
         { entity_id := "light.gone", brightness_pct := 100 }] := by
  have h := spec_C5_pending_shrinks c5Oracle .ON {}
    [{ entity_id := "light.off", brightness_pct := 100 },
     { entity_id := "light.gone", brightness_pct := 100 }]
  constructor
  · exact (h.2.1 _ (by decide)).mpr (by decide)
  · intro hmem
    exact (h.2.1 _ (by decide)).mp hmem (by decide)

/-! ### C2: TIMEOUT takes precedence over FAILED -/

/-- **C2.** When the retry loop ends with a non-empty pending list and the
elapsed time sampled after the loop has reached `max_runtime_seconds`, the
assembled result is `TIMEOUT` (not `FAILED`) with `failed_lights` the
remaining pending ids and `success = false`; `FAILED` is produced only when
targets remain and the elapsed time is still below the budget. -/
theorem spec_C2_timeout_precedence (env : Env) (target_state : TargetState)
    (tol : ColorTolerance) (cfg : RetryConfig) (transition : ℚ)
    (pending0 : List LightTarget) (fuel : ℕ) (members skipped : List String) :
    ((retry_loop env target_state tol cfg transition pending0 0 fuel).1 ≠ [] →
      cfg.max_runtime_seconds ≤ env.clockEnd →
      (finish_result members skipped cfg
          (retry_loop env target_state tol cfg transition pending0 0 fuel).2.1
          (retry_loop env target_state tol cfg transition pending0 0 fuel).1
          env.clockEnd).result_code = RESULT_CODE_TIMEOUT ∧
      (finish_result members skipped cfg
          (retry_loop env target_state tol cfg transition pending0 0 fuel).2.1
          (retry_loop env target_state tol cfg transition pending0 0 fuel).1
          env.clockEnd).result_code ≠ RESULT_CODE_FAILED ∧
      (finish_result members skipped cfg
          (retry_loop env target_state tol cfg transition pending0 0 fuel).2.1
          (retry_loop env target_state tol cfg transition pending0 0 fuel).1
          env.clockEnd).failed_lights =
        (retry_loop env target_state tol cfg transition pending0 0 fuel).1.map
          LightTarget.entity_id ∧
      (finish_result members skipped cfg
          (retry_loop env target_state tol cfg transition pending0 0 fuel).2.1
          (retry_loop env target_state tol cfg transition pending0 0 fuel).1
          env.clockEnd).success = false) ∧
    ((finish_result members skipped cfg
        (retry_loop env target_state tol cfg transition pending0 0 fuel).2.1
        (retry_loop env target_state tol cfg transition pending0 0 fuel).1
        env.clockEnd).result_code = RESULT_CODE_FAILED →
      (retry_loop env target_state tol cfg transition pending0 0 fuel).1 ≠ [] ∧
      env.clockEnd < cfg.max_runtime_seconds) := by
  constructor
  · intro hne hel
    unfold finish_result
    rw [if_pos ⟨hel, hne⟩]
    exact ⟨rfl, show RESULT_CODE_TIMEOUT ≠ RESULT_CODE_FAILED by decide, rfl, rfl⟩
  · intro hfc
    unfold finish_result at hfc
    by_cases h1 : cfg.max_runtime_seconds ≤ env.clockEnd ∧
        (retry_loop env target_state tol cfg transition pending0 0 fuel).1 ≠ []
    · rw [if_pos h1] at hfc
      exact absurd (show RESULT_CODE_TIMEOUT = RESULT_CODE_FAILED from hfc)
        (by decide)
    · rw [if_neg h1] at hfc
      by_cases h2 : (retry_loop env target_state tol cfg transition pending0 0 fuel).1 ≠ []
      · rw [if_pos h2] at hfc
        exact ⟨h2, lt_of_not_le fun hle => h1 ⟨hle, h2⟩⟩
      · rw [if_neg h2] at hfc
        exact absurd (show RESULT_CODE_SUCCESS = RESULT_CODE_FAILED from hfc)
          (by decide)

/-- Environment and inputs for the C2 witness: the budget is 1 second and
the final elapsed sample is 5 seconds with one target still pending. -/
def c2Env : Env := { oracle := fun _ _ => none, clock := fun _ => 0, clockEnd := 5 }

def c2Cfg : RetryConfig := { max_retries := 0, max_runtime_seconds := 1 }

theorem spec_C2_witness :
    (finish_result ["light.a"] [] c2Cfg
        (retry_loop c2Env .ON {} c2Cfg 0 [{ entity_id := "light.a" }] 0 0).2.1
        (retry_loop c2Env .ON {} c2Cfg 0 [{ entity_id := "light.a" }] 0 0).1
        c2Env.clockEnd).result_code = RESULT_CODE_TIMEOUT ∧
    (finish_result ["light.a"] [] c2Cfg
        (retry_loop c2Env .ON {} c2Cfg 0 [{ entity_id := "light.a" }] 0 0).2.1
        (retry_loop c2Env .ON {} c2Cfg 0 [{ entity_id := "light.a" }] 0 0).1
        c2Env.clockEnd).result_code ≠ RESULT_CODE_FAILED := by
  have h := (spec_C2_timeout_precedence c2Env .ON {} c2Cfg 0
    [{ entity_id := "light.a" }] 0 ["light.a"] []).1
    (by rw [retry_loop]; exact by decide)
    (by norm_num [c2Cfg, c2Env])
  exact ⟨h.1, h.2.1⟩

/-! ### C6: NO_VALID_ENTITIES before any dispatch -/

/-- **C6.** For a non-empty, type-valid request whose references resolve to
zero available lights, `ensure_state` returns `NO_VALID_ENTITIES` with
`success = false` and records no dispatch at all, and this code is distinct
from the validation `ERROR` code and from `FAILED`. -/
theorem spec_C6_no_valid_entities (env : Env) (P : EnsureParams)
    (hne : ¬P.entities = [])
    (hts : TargetState.from_string P.state_target ≠ none)
    (hvalid : (expand_entities (env.oracle 0) P.entities).1 = []) :
    (ensure_state env P).1.result_code = RESULT_CODE_NO_VALID_ENTITIES ∧
    (ensure_state env P).1.success = false ∧
    (ensure_state env P).2 = [] ∧
    RESULT_CODE_NO_VALID_ENTITIES ≠ RESULT_CODE_ERROR ∧
    RESULT_CODE_NO_VALID_ENTITIES ≠ RESULT_CODE_FAILED := by
  unfold ensure_state
  rw [if_neg hne]
  cases hp : TargetState.from_string P.state_target with
  | none => exact absurd hp hts
  | some target_state =>
    simp only [hvalid, if_pos]
    refine ⟨?_, ?_, ?_, ?_, ?_⟩ <;> first | rfl | trivial

/-- Environment for the C6 witness: the single referenced light exists but
is unavailable. -/
def c6Env : Env :=
  { oracle := fun _ id =>
      if id = "light.a" then some { state := "unavailable" } else none,
    clock := fun _ => 0, clockEnd := 0 }

theorem spec_C6_witness :
    (ensure_state c6Env { entities := ["light.a"] }).1.result_code =
      RESULT_CODE_NO_VALID_ENTITIES ∧
    (ensure_state c6Env { entities := ["light.a"] }).2 = [] := by
  have h := spec_C6_no_valid_entities c6Env { entities := ["light.a"] }
    (by decide) (by decide) (by decide)
  exact ⟨h.1, h.2.2.1⟩

/-! ### C10: devices going unavailable mid-run are dropped silently -/

theorem retry_loop_nil (env : Env) (target_state : TargetState)
    (tol : ColorTolerance) (cfg : RetryConfig) (transition : ℚ)
    (attempt fuel : ℕ) :
    retry_loop env target_state tol cfg transition [] attempt fuel =
      ([], attempt, []) := by
  cases fuel with
  | zero => rw [retry_loop]
  | succ fuel => rw [retry_loop, if_pos rfl]

theorem retry_loop_succ_unfold (env : Env) (target_state : TargetState)
    (tol : ColorTolerance) (cfg : RetryConfig) (transition : ℚ)
    (pending : List LightTarget) (attempt fuel : ℕ)
    (hp : ¬pending = []) (hc : ¬cfg.max_runtime_seconds ≤ env.clock attempt) :
    (retry_loop env target_state tol cfg transition pending attempt (fuel + 1)).1 =
      (retry_loop env target_state tol cfg transition
        (still_pending (env.oracle (attempt + 1)) target_state tol pending)
        (attempt + 1) fuel).1 := by
  rw [retry_loop, if_neg hp, if_neg hc]

/-- **C10.** If, on a retry round that actually executes, a pending target
verifies `UNAVAILABLE`, it is removed from the working set and its id
appears in neither `failed_lights` nor `skipped_lights` of the assembled
result (the latter holds only resolution-time skips); and if the
verification round empties the pending set, the run finishes `SUCCESS`
with `success = true`. -/
theorem spec_C10_unavailable_dropped (env : Env) (target_state : TargetState)
    (tol : ColorTolerance) (cfg : RetryConfig) (transition : ℚ)
    (pending : List LightTarget) (attempt fuel : ℕ)
    (members skipped : List String) (t : LightTarget)
    (hnodup : (pending.map LightTarget.entity_id).Nodup)
    (ht : t ∈ pending)
    (hp : ¬pending = [])
    (hc : env.clock attempt < cfg.max_runtime_seconds)
    (hunav : verify_light (env.oracle (attempt + 1)) t target_state tol =
      .UNAVAILABLE)
    (hskip : t.entity_id ∉ skipped) :
    t.entity_id ∉
      (finish_result members skipped cfg
        (retry_loop env target_state tol cfg transition pending attempt
          (fuel + 1)).2.1
        (retry_loop env target_state tol cfg transition pending attempt
          (fuel + 1)).1
        env.clockEnd).failed_lights ∧
    t.entity_id ∉
      (finish_result members skipped cfg
        (retry_loop env target_state tol cfg transition pending attempt
          (fuel + 1)).2.1
        (retry_loop env target_state tol cfg transition pending attempt
          (fuel + 1)).1
        env.clockEnd).skipped_lights ∧
    (still_pending (env.oracle (attempt + 1)) target_state tol pending = [] →
      (finish_result members skipped cfg
        (retry_loop env target_state tol cfg transition pending attempt
          (fuel + 1)).2.1
        (retry_loop env target_state tol cfg transition pending attempt
          (fuel + 1)).1
        env.clockEnd).result_code = RESULT_CODE_SUCCESS ∧
      (finish_result members skipped cfg
        (retry_loop env target_state tol cfg transition pending attempt
          (fuel + 1)).2.1
        (retry_loop env target_state tol cfg transition pending attempt
          (fuel + 1)).1
        env.clockEnd).success = true) := by
  have hcle : ¬cfg.max_runtime_seconds ≤ env.clock attempt := not_le.mpr hc
  have hunfold := retry_loop_succ_unfold env target_state tol cfg transition
    pending attempt fuel hp hcle
  have hsub1 : List.Sublist
      (retry_loop env target_state tol cfg transition pending attempt (fuel + 1)).1
      (still_pending (env.oracle (attempt + 1)) target_state tol pending) := by
    rw [hunfold]
    exact retry_loop_pending_sublist env target_state tol cfg transition fuel
      (attempt + 1) _
  have htnot : t ∉ still_pending (env.oracle (attempt + 1)) target_state tol pending := by
    intro hmem
    exact (mem_still_pending (env.oracle (attempt + 1)) target_state tol ht).mp hmem
      (Or.inr hunav)
  have htfin : t ∉
      (retry_loop env target_state tol cfg transition pending attempt (fuel + 1)).1 :=
    fun hmem => htnot (hsub1.subset hmem)
  have hsub2 : List.Sublist
      (retry_loop env target_state tol cfg transition pending attempt (fuel + 1)).1
      pending := hsub1.trans (still_pending_sublist _ _ _ _)
  have hmapnot : t.entity_id ∉
      (retry_loop env target_state tol cfg transition pending attempt
        (fuel + 1)).1.map LightTarget.entity_id := by
    intro hmem
    rcases List.mem_map.mp hmem with ⟨u, humem, hueq⟩
    have hu : u ∈ pending := hsub2.subset humem
    have : u = t := List.inj_on_of_nodup_map hnodup hu ht hueq
    rw [this] at humem
    exact htfin humem
  refine ⟨?_, ?_, ?_⟩
  · unfold finish_result
    split_ifs
    · exact hmapnot
    · exact hmapnot
    · simp
  · unfold finish_result
    split_ifs
    · exact hskip
    · exact hskip
    · exact hskip
  · intro hempty
    have hfin : (retry_loop env target_state tol cfg transition pending attempt
        (fuel + 1)).1 = [] := by
      rw [hunfold, hempty, retry_loop_nil]
    rw [hfin]
    unfold finish_result
    rw [if_neg (by intro h; exact h.2 rfl), if_neg (by intro h; exact h rfl)]
    exact ⟨rfl, rfl⟩

/-- Environment for the C10 witness: the only target device reports
"unavailable" at every verification phase. -/
def c10Env : Env :=
  { oracle := fun _ id =>
      if id = "light.a" then some { state := "unavailable" } else none,
    clock := fun _ => 0, clockEnd := 0 }

def c10Cfg : RetryConfig := { max_retries := 3, max_runtime_seconds := 60 }

theorem spec_C10_witness :
    "light.a" ∉
      (finish_result ["light.a"] [] c10Cfg
        (retry_loop c10Env .ON {} c10Cfg 0 [{ entity_id := "light.a" }] 0
          (2 + 1)).2.1
        (retry_loop c10Env .ON {} c10Cfg 0 [{ entity_id := "light.a" }] 0
          (2 + 1)).1
        c10Env.clockEnd).failed_lights ∧
    (finish_result ["light.a"] [] c10Cfg
        (retry_loop c10Env .ON {} c10Cfg 0 [{ entity_id := "light.a" }] 0
          (2 + 1)).2.1
        (retry_loop c10Env .ON {} c10Cfg 0 [{ entity_id := "light.a" }] 0
          (2 + 1)).1
        c10Env.clockEnd).result_code = RESULT_CODE_SUCCESS := by
  have h := spec_C10_unavailable_dropped c10Env .ON {} c10Cfg 0
    [{ entity_id := "light.a" }] 0 2 ["light.a"] []
    { entity_id := "light.a" }
    (by decide) (by decide) (by decide) (by norm_num [c10Cfg, c10Env])
    (by decide) (by decide)
  exact ⟨h.1, (h.2.2 (by decide)).1⟩
